import Mathlib

/-!
# A shallow embedding of `nu_plugin_socket` (client `socket connect`, server `socket listen`)

This file embeds the two commands of the plugin:

* `src/connect.rs` (`Connect::run`) — the active client: parse the port,
  resolve the timeout from the `--timeout` flag (10 s default), derive the
  payload from the pipeline input, resolve the address, then either the UDP
  send/receive branch or the TCP connect/write/stream branch.
* `src/connect.SAV.rs` (`Connect::run`, backup source) — same client, whose
  timeout resolution additionally consults the process-wide plugin
  configuration (`config.plugins.socket.timeout`).
* `src/listen.rs` (`Listen::run` and `handle_connection`) — the server:
  bind, set non-blocking, then a loop that polls the interrupt signal,
  accepts connections, dispatches each to a concurrently-run handler, sleeps
  50 ms on `WouldBlock`, and stops on interrupt, single-shot dispatch, or any
  other accept error.

Effectful operations are modelled by explicit environments (`NetEnv`,
`ListenEnv`, `ConnEnv`) supplying the outcome of each OS call, and each
operation additionally returns the ordered list of I/O actions it attempted,
so that ordering facts ("no socket is created before the port check") are
provable.  The server loop is modelled with fuel, since the real loop need
not terminate.
-/

namespace NuSocket

/-- Which input a `LabeledError`'s label points at: the call head, or the
n-th positional argument (`call.positional[n].span()`). -/
inductive SpanRef where
  | head
  | positional (n : Nat)
deriving DecidableEq, Repr

/-- `nu_protocol::LabeledError` restricted to the fields this plugin sets:
`LabeledError::new(name)`, `.with_help(help)`, `.with_label(labelText, span)`. -/
structure LabeledError where
  name : String
  help : Option String
  labelText : String
  labelSpan : SpanRef
deriving DecidableEq, Repr

/-- `nu_protocol::ShellError::GenericError` restricted to the fields
`handle_connection` sets (the `span` is always the call head, `inner` always
empty, so both are omitted). -/
structure ShellErr where
  error : String
  msg : String
  help : Option String
deriving DecidableEq, Repr

/-- `nu_protocol::Value` restricted to the shapes the plugin matches on.
`int` stands in for a concrete non-byte value; `other` abstracts every
remaining `Value` shape by the name `Value::get_type` would print. -/
inductive Value where
  | str (s : String)
  | binary (b : List Nat)
  | nothing
  | int (n : Int)
  | other (typeName : String)
deriving DecidableEq, Repr

/-- The name `Value::get_type()` prints, as used in the error messages. -/
def Value.typeName : Value → String
  | .str _ => "string"
  | .binary _ => "binary"
  | .nothing => "nothing"
  | .int _ => "int"
  | .other t => t

/-- `String::as_bytes`: the UTF-8 bytes of a Rust/Lean string. -/
def strBytes (s : String) : List Nat :=
  s.toUTF8.toList.map (fun b => b.toNat)

/-- An IP address, keeping only what the embedding needs: its family and a
display form. -/
inductive IpAddr where
  | v4 (a b c d : Nat)
  | v6 (text : String)
deriving DecidableEq, Repr

/-- `std::net::SocketAddr`: an IP address plus a port. -/
structure SockAddr where
  ip : IpAddr
  port : Nat
deriving DecidableEq, Repr

/-- Whether a socket address is an IPv4 address. -/
def SockAddr.isV4 : SockAddr → Bool
  | ⟨.v4 _ _ _ _, _⟩ => true
  | ⟨.v6 _, _⟩ => false

/-- The `as u64` cast of Rust applied to an `i64` value: wrap modulo `2^64`. -/
def u64ofInt (n : Int) : Nat :=
  (n % (2 : Int) ^ 64).toNat

/-- The `as i64` cast of Rust applied to an unsigned value: reduce modulo
`2^64`, then reinterpret the high range as negative. -/
def toI64 (n : Nat) : Int :=
  let m : Nat := n % 2 ^ 64
  if m < 2 ^ 63 then (m : Int) else (m : Int) - 2 ^ 64

/-- `src/connect.rs` lines 79-82: the effective timeout in nanoseconds.
`Duration::from_nanos(timeout_val.unwrap_or(10_000_000_000) as u64)` — the
`--timeout` flag if present, else 10 s; the plugin configuration is never
consulted in the active source. -/
def resolveTimeoutNanos (timeoutFlag : Option Int) : Nat :=
  u64ofInt (timeoutFlag.getD 10000000000)

/-- `src/connect.SAV.rs` lines 87-105 (backup source): the effective timeout
in nanoseconds.  Start from the flag-or-default, overwrite with the
`config.plugins.socket.timeout` duration when present, overwrite with the
flag when present, then cast back with `as u64`. -/
def savResolveTimeoutNanos (timeoutFlag configTimeout : Option Int) : Nat :=
  let timeout : Nat := u64ofInt (timeoutFlag.getD 10000000000)
  let t1 : Int := toI64 timeout
  let t2 : Int :=
    match configTimeout with
    | some v => v
    | none => t1
  let t3 : Int :=
    match timeoutFlag with
    | some v => v
    | none => t2
  u64ofInt t3

/-- TimeoutResolver exactly as the spec words it (for comparison with the
code-derived resolvers): `callFlag` if present; else `processConfig` if
present; else the fixed default of 10 seconds (in nanoseconds). -/
def specTimeoutResolve (callFlag processConfig : Option Nat) : Nat :=
  callFlag.getD (processConfig.getD 10000000000)

/-- The `EngineInterface` state the client could observe: the process-wide
plugin configuration timeout (`config.plugins.socket.timeout`), in
nanoseconds, when set. -/
structure Engine where
  pluginTimeoutConfig : Option Int

/-- `src/connect.rs` lines 67-75: `let port: u16 = port_val.try_into()`.
Succeeds exactly on [0, 65535]; otherwise the "Invalid port number" error
labelled at the port positional argument. -/
def parsePort (portVal : Int) : Except LabeledError Nat :=
  if 0 ≤ portVal ∧ portVal ≤ 65535 then
    .ok portVal.toNat
  else
    .error
      { name := "Invalid port number"
      , help := some "Port must be between 0 and 65535."
      , labelText := "here"
      , labelSpan := .positional 1 }

/-- `src/connect.rs` lines 84-97: derive the payload bytes from the pipeline
input value. -/
def payloadOf (input : Value) : Except LabeledError (List Nat) :=
  match input with
  | .str s => .ok (strBytes s)
  | .binary b => .ok b
  | .nothing => .ok []
  | v =>
    .error
      { name := "Unsupported input type"
      , help := some ("Expected string or binary, but got " ++ v.typeName)
      , labelText := "input originates from here"
      , labelSpan := .head }

/-- Whether the client accepts this input value as a payload. -/
def Value.isPayload : Value → Bool
  | .str _ => true
  | .binary _ => true
  | .nothing => true
  | _ => false

/-- `format!("{host}:{port}")` — the string handed to `to_socket_addrs`. -/
def addrString (host : String) (port : Nat) : String :=
  host ++ ":" ++ toString port

/-- The I/O actions `Connect::run` can attempt, in the order attempted. -/
inductive NetAction where
  | resolve (addr : String)
  | udpBind (localAddr : String)
  | setReadTimeout (nanos : Nat)
  | udpSendTo (payload : List Nat) (dest : SockAddr)
  | udpRecvFrom (bufSize : Nat)
  | tcpConnect (dest : SockAddr) (timeoutNanos : Nat)
  | tcpWrite (payload : List Nat)
deriving DecidableEq, Repr

/-- The outcome of each OS call `Connect::run` can make.  `udpSendOs` is the
OS outcome of `send_to` in the compatible-family case; `udpRecv` yields the
received datagram together with its source address. -/
structure NetEnv where
  resolve : String → Except String (List SockAddr)
  udpBind : Except String Unit
  setUdpTimeout : Except String Unit
  udpSendOs : Except String Unit
  udpRecv : Except String (List Nat × SockAddr)
  tcpConnect : Except String Unit
  setTcpTimeout : Except String Unit
  tcpWrite : Except String Unit

/-- Models POSIX `sendto` on the UDP socket this client binds
(`UdpSocket::bind("0.0.0.0:0")`, an IPv4 socket): sending to an IPv6
destination fails with an address-family error at the OS level; to an IPv4
destination the outcome is whatever the network yields. -/
def udpSendToResult (env : NetEnv) (dest : SockAddr) : Except String Unit :=
  if dest.isV4 then env.udpSendOs
  else .error "Address family not supported by protocol (os error 97)"

/-- The value a successful `Connect::run` returns: a fully buffered binary
value (UDP), or a byte stream backed by the live TCP connection, carrying
the peer it is connected to and the read timeout set on it. -/
inductive ConnectOutput where
  | binaryValue (bytes : List Nat)
  | byteStream (peer : SockAddr) (readTimeoutNanos : Nat)
deriving DecidableEq, Repr

/-- `src/connect.rs` lines 99-193: everything after argument/payload
parsing, for an already-resolved timeout.  Returns the attempted I/O actions
in order together with the result. -/
def connectRunCore (env : NetEnv) (timeoutNanos : Nat) (host : String)
    (port : Nat) (useUdp : Bool) (inputBytes : List Nat) :
    List NetAction × Except LabeledError ConnectOutput :=
  let addr := addrString host port
  match env.resolve addr with
  | .error e =>
    ([.resolve addr],
     .error { name := "Failed to resolve host", help := some e
            , labelText := "for this host", labelSpan := .positional 0 })
  | .ok [] =>
    ([.resolve addr],
     .error { name := "No IP addresses found for host", help := none
            , labelText := "for this host", labelSpan := .positional 0 })
  | .ok (sockAddr :: _) =>
    if useUdp then
      match env.udpBind with
      | .error e =>
        ([.resolve addr, .udpBind "0.0.0.0:0"],
         .error { name := "Failed to bind UDP socket", help := some e
                , labelText := "here", labelSpan := .head })
      | .ok () =>
        match env.setUdpTimeout with
        | .error e =>
          ([.resolve addr, .udpBind "0.0.0.0:0", .setReadTimeout timeoutNanos],
           .error { name := "Failed to set UDP read timeout", help := some e
                  , labelText := "here", labelSpan := .head })
        | .ok () =>
          match udpSendToResult env sockAddr with
          | .error e =>
            ([.resolve addr, .udpBind "0.0.0.0:0", .setReadTimeout timeoutNanos,
              .udpSendTo inputBytes sockAddr],
             .error { name := "Failed to send UDP packet", help := some e
                    , labelText := "here", labelSpan := .head })
          | .ok () =>
            match env.udpRecv with
            | .error e =>
              ([.resolve addr, .udpBind "0.0.0.0:0", .setReadTimeout timeoutNanos,
                .udpSendTo inputBytes sockAddr, .udpRecvFrom 65535],
               .error { name := "Failed to receive UDP packet (timed out?)"
                      , help := some e, labelText := "here", labelSpan := .head })
            | .ok (datagram, _sourceAddr) =>
              ([.resolve addr, .udpBind "0.0.0.0:0", .setReadTimeout timeoutNanos,
                .udpSendTo inputBytes sockAddr, .udpRecvFrom 65535],
               .ok (.binaryValue (datagram.take 65535)))
    else
      match env.tcpConnect with
      | .error e =>
        ([.resolve addr, .tcpConnect sockAddr timeoutNanos],
         .error { name := "Connection timed out or failed", help := some e
                , labelText := "here", labelSpan := .head })
      | .ok () =>
        match env.setTcpTimeout with
        | .error e =>
          ([.resolve addr, .tcpConnect sockAddr timeoutNanos,
            .setReadTimeout timeoutNanos],
           .error { name := "Failed to set read timeout", help := some e
                  , labelText := "here", labelSpan := .head })
        | .ok () =>
          match env.tcpWrite with
          | .error e =>
            ([.resolve addr, .tcpConnect sockAddr timeoutNanos,
              .setReadTimeout timeoutNanos, .tcpWrite inputBytes],
             .error { name := "Failed to write to socket", help := some e
                    , labelText := "here", labelSpan := .head })
          | .ok () =>
            ([.resolve addr, .tcpConnect sockAddr timeoutNanos,
              .setReadTimeout timeoutNanos, .tcpWrite inputBytes],
             .ok (.byteStream sockAddr timeoutNanos))

/-- The arguments of one `socket connect` invocation, as the engine delivers
them: the two positional arguments, the `--timeout` flag (a duration in
nanoseconds), the `--udp` switch, and the pipeline input already collected
into a value. -/
structure ConnectArgs where
  host : String
  portVal : Int
  timeoutFlag : Option Int
  useUdp : Bool
  input : Value

/-- `src/connect.rs` `Connect::run` (lines 58-194): port check, timeout
resolution, payload derivation, then `connectRunCore`.  The `engine`
argument is available to the code but the active source only uses it for
the signal handle of the returned TCP stream; in particular its plugin
configuration is never read. -/
def connectRun (_engine : Engine) (env : NetEnv) (args : ConnectArgs) :
    List NetAction × Except LabeledError ConnectOutput :=
  match parsePort args.portVal with
  | .error e => ([], .error e)
  | .ok port =>
    match payloadOf args.input with
    | .error e => ([], .error e)
    | .ok inputBytes =>
      connectRunCore env (resolveTimeoutNanos args.timeoutFlag)
        args.host port args.useUdp inputBytes

/-! ## The server: `src/listen.rs` -/

/-- The I/O actions of one connection handler (`handle_connection`), in the
order attempted. -/
inductive ConnAction where
  | hSetReadTimeout (nanos : Nat)
  | hRead (bufSize : Nat)
  | hEval (request : List Nat)
  | hWrite (bytes : List Nat)
deriving DecidableEq, Repr

/-- The outcome of each effect one `handle_connection` call can make:
setting the stream read timeout, the single `stream.read` (yielding the
bytes the peer sent, of which at most 4096 land in the buffer), the
host-provided closure evaluation, and the `write_all` back. -/
structure ConnEnv where
  setReadTimeoutResult : Except String Unit
  readResult : Except String (List Nat)
  evalClosure : List Nat → Except ShellErr Value
  writeResult : Except String Unit

/-- `src/listen.rs` `handle_connection` (lines 117-175): set a 10 s read
timeout, read once into a 4096-byte buffer and truncate, evaluate the
closure on the request as a binary value, require a string or binary result,
and write it back.  Returns the attempted actions in order and the result. -/
def handleConnection (cenv : ConnEnv) : List ConnAction × Except ShellErr Unit :=
  match cenv.setReadTimeoutResult with
  | .error e =>
    ([.hSetReadTimeout 10000000000],
     .error { error := "Failed to set read timeout", msg := e, help := none })
  | .ok () =>
    match cenv.readResult with
    | .error e =>
      ([.hSetReadTimeout 10000000000, .hRead 4096],
       .error { error := "Failed to read from socket", msg := e
              , help := some "This can happen if the client disconnects or the read times out." })
    | .ok bytes =>
      let request := bytes.take 4096
      match cenv.evalClosure request with
      | .error e =>
        ([.hSetReadTimeout 10000000000, .hRead 4096, .hEval request], .error e)
      | .ok v =>
        match v with
        | .str s =>
          ([.hSetReadTimeout 10000000000, .hRead 4096, .hEval request,
            .hWrite (strBytes s)],
           match cenv.writeResult with
           | .error e =>
             .error { error := "Failed to write to socket", msg := e, help := none }
           | .ok () => .ok ())
        | .binary b =>
          ([.hSetReadTimeout 10000000000, .hRead 4096, .hEval request, .hWrite b],
           match cenv.writeResult with
           | .error e =>
             .error { error := "Failed to write to socket", msg := e, help := none }
           | .ok () => .ok ())
        | otherVal =>
          ([.hSetReadTimeout 10000000000, .hRead 4096, .hEval request],
           .error { error := "Unsupported closure output"
                  , msg := "Expected string or binary from closure, but got "
                      ++ otherVal.typeName ++ "."
                  , help := some "The closure for `socket listen` must return a string or binary value." })

/-- Whether a handler action writes response bytes to the connection. -/
def ConnAction.isWrite : ConnAction → Bool
  | .hWrite _ => true
  | _ => false

/-- The outcome of one `listener.accept()` attempt: a connection (identified
by a number), `ErrorKind::WouldBlock`, or any other error. -/
inductive AcceptResult where
  | conn (c : Nat)
  | wouldBlock
  | fatal (e : String)
deriving DecidableEq, Repr

/-- The observable steps of the accept loop, in order: the interrupt-signal
check opening every iteration, the accept attempt, the dispatch of a
handler thread for connection `c`, the 50 ms idle sleep, and the report of
a fatal accept error to the diagnostic stream. -/
inductive LoopAction where
  | checkSignal
  | acceptAttempt
  | dispatch (c : Nat)
  | sleep (millis : Nat)
  | report (e : String)
deriving DecidableEq, Repr

/-- Why the accept loop stopped.  `fuelOut` is an artifact of the fuel-based
model: the loop was still running when the observation window closed. -/
inductive LoopExit where
  | interrupted
  | singleShotDone
  | fatalError (e : String)
  | fuelOut
deriving DecidableEq, Repr

/-- The environment of one `Listen::run` invocation: the bind and
set-nonblocking outcomes, and, per loop iteration, the interrupt-signal
state and the accept outcome. -/
structure ListenEnv where
  bindResult : Except String Unit
  setNonblockingResult : Except String Unit
  interrupted : Nat → Bool
  accept : Nat → AcceptResult

/-- `src/listen.rs` lines 69-111: the accept loop, with fuel.  `i` numbers
the loop iterations (indexing the environment), `k` numbers the dispatched
connections (the `k`-th dispatch runs with handler environment
`handlers k`).  The handler runs on its own spawned thread; the model
records its outcome in the third component without letting it influence the
loop, mirroring the fire-and-forget `thread::spawn`.  Each iteration first
checks the interrupt signal, then attempts an accept: a connection is
dispatched (and, under `--single`, the loop breaks immediately after the
dispatch); `WouldBlock` sleeps 50 ms and continues; any other accept error
is reported and breaks the loop. -/
def serverRun (env : ListenEnv) (handlers : Nat → ConnEnv) (single : Bool) :
    Nat → Nat → Nat → List LoopAction × LoopExit × List (Except ShellErr Unit)
  | _, _, 0 => ([], .fuelOut, [])
  | i, k, fuel + 1 =>
    if env.interrupted i then
      ([.checkSignal], .interrupted, [])
    else
      match env.accept i with
      | .conn c =>
        let outcome := (handleConnection (handlers k)).2
        if single then
          ([.checkSignal, .acceptAttempt, .dispatch c], .singleShotDone, [outcome])
        else
          let r := serverRun env handlers single (i + 1) (k + 1) fuel
          (.checkSignal :: .acceptAttempt :: .dispatch c :: r.1, r.2.1,
           outcome :: r.2.2)
      | .wouldBlock =>
        let r := serverRun env handlers single (i + 1) k fuel
        (.checkSignal :: .acceptAttempt :: .sleep 50 :: r.1, r.2.1, r.2.2)
      | .fatal e =>
        ([.checkSignal, .acceptAttempt, .report e], .fatalError e, [])

/-- The value `Listen::run` returns once the loop exits: always
`Ok(PipelineData::empty())` (line 113), modelled as `.ok ()`.  `none` when
the fuel ran out with the loop still running. -/
def runResultOfExit : LoopExit → Option (Except LabeledError Unit)
  | .fuelOut => none
  | _ => some (.ok ())

/-- `src/listen.rs` `Listen::run` (lines 40-114): bind, set non-blocking,
then the accept loop; whatever makes the loop exit, the function returns
the successful empty pipeline. -/
def listenRun (env : ListenEnv) (handlers : Nat → ConnEnv) (single : Bool)
    (fuel : Nat) : List LoopAction × Option (Except LabeledError Unit) :=
  match env.bindResult with
  | .error e =>
    ([], some (.error { name := "Failed to bind to address", help := some e
                      , labelText := "here", labelSpan := .head }))
  | .ok () =>
    match env.setNonblockingResult with
    | .error e =>
      ([], some (.error { name := "Failed to set listener to non-blocking"
                        , help := some e, labelText := "here", labelSpan := .head }))
    | .ok () =>
      let r := serverRun env handlers single 0 0 fuel
      (r.1, runResultOfExit r.2.1)

/-- Whether a loop action dispatches a connection handler. -/
def LoopAction.isDispatch : LoopAction → Bool
  | .dispatch _ => true
  | _ => false

/-- The number of handler dispatches in a loop trace. -/
def dispatchCount (as : List LoopAction) : Nat :=
  as.countP (fun a => a.isDispatch)

/-- The per-iteration shape of an accept-loop trace: each iteration opens
with exactly one `checkSignal`; an `acceptAttempt` follows unless the trace
ends there (interrupt); after the accept comes a `dispatch` (then either the
end of the trace or the next iteration), a 50 ms `sleep` (then the next
iteration), or a final `report`.  The `Bool` is `true` between an accept
attempt and its outcome. -/
def shapeOk : Bool → List LoopAction → Bool
  | _, [] => true
  | false, [LoopAction.checkSignal] => true
  | false, .checkSignal :: .acceptAttempt :: rest => shapeOk true rest
  | true, .dispatch _ :: rest => shapeOk false rest
  | true, .sleep n :: rest => n == 50 && shapeOk false rest
  | true, .report _ :: rest => rest.isEmpty
  | _, _ => false

/-- Whether a closure result is byte-representable (string or binary), the
shapes `handle_connection` writes back. -/
def Value.isByteRepresentable : Value → Bool
  | .str _ => true
  | .binary _ => true
  | _ => false

/-- Whether a client action is a UDP receive call. -/
def NetAction.isRecvFrom : NetAction → Bool
  | .udpRecvFrom _ => true
  | _ => false

/-! ## Concrete environments, used to evaluate the model on closed inputs -/

/-- A network environment where every OS call succeeds; resolution yields a
single IPv4 address and the UDP reply is the datagram `[1, 2, 3]`. -/
def okNetEnv : NetEnv :=
  { resolve := fun _ => .ok [⟨.v4 198 51 100 7, 80⟩]
  , udpBind := .ok ()
  , setUdpTimeout := .ok ()
  , udpSendOs := .ok ()
  , udpRecv := .ok ([1, 2, 3], ⟨.v4 198 51 100 7, 80⟩)
  , tcpConnect := .ok ()
  , setTcpTimeout := .ok ()
  , tcpWrite := .ok () }

/-- Like `okNetEnv`, but name resolution yields an IPv6 address first. -/
def v6NetEnv : NetEnv :=
  { okNetEnv with resolve := fun _ => .ok [⟨.v6 "2001:db8::1", 80⟩] }

/-- A typical client invocation: UDP, no `--timeout` flag, empty input. -/
def udpArgs : ConnectArgs :=
  { host := "203.0.113.9", portVal := 53, timeoutFlag := none
  , useUdp := true, input := .nothing }

/-- A handler environment where every step succeeds and the closure returns
a binary value. -/
def okConnEnv : ConnEnv :=
  { setReadTimeoutResult := .ok ()
  , readResult := .ok [7, 7]
  , evalClosure := fun _ => .ok (.binary [1])
  , writeResult := .ok () }

/-- Like `okConnEnv`, but the closure returns an integer — a value that is
neither a string nor a binary. -/
def intConnEnv : ConnEnv :=
  { okConnEnv with evalClosure := fun _ => .ok (.int 3) }

/-- A listen environment that binds fine, is never interrupted, and whose
every accept attempt fails with a non-would-block error. -/
def fatalListenEnv : ListenEnv :=
  { bindResult := .ok ()
  , setNonblockingResult := .ok ()
  , interrupted := fun _ => false
  , accept := fun _ => .fatal "boom" }

/-- A listen environment where every accept attempt yields a connection. -/
def oneConnListenEnv : ListenEnv :=
  { fatalListenEnv with accept := fun _ => .conn 0 }

/-- A listen environment whose interrupt signal is already set. -/
def interruptedListenEnv : ListenEnv :=
  { fatalListenEnv with interrupted := fun _ => true }

/-- A listen environment where no client is ever waiting (every accept
would block). -/
def idleListenEnv : ListenEnv :=
  { fatalListenEnv with accept := fun _ => .wouldBlock }

/-! ## Helper lemmas about the accept loop -/

/-- The loop trace and the loop exit are functions of the listen environment
alone: they do not depend on the handler environments (the handler threads
are fire-and-forget). -/
theorem serverRun_handlers_agnostic (env : ListenEnv) (h1 h2 : Nat → ConnEnv)
    (single : Bool) :
    ∀ fuel i k,
      (serverRun env h1 single i k fuel).1 = (serverRun env h2 single i k fuel).1
      ∧ (serverRun env h1 single i k fuel).2.1
          = (serverRun env h2 single i k fuel).2.1 := by
  intro fuel
  induction fuel with
  | zero => intro i k; exact ⟨rfl, rfl⟩
  | succ n ih =>
    intro i k
    cases hI : env.interrupted i with
    | true => simp [serverRun, hI]
    | false =>
      cases hA : env.accept i with
      | conn c =>
        cases single with
        | true => simp [serverRun, hI, hA]
        | false =>
          have h := ih (i + 1) (k + 1)
          simp [serverRun, hI, hA, h.1, h.2]
      | wouldBlock =>
        have h := ih (i + 1) k
        simp [serverRun, hI, hA, h.1, h.2]
      | fatal e => simp [serverRun, hI, hA]

/-- Every accept-loop trace has the per-iteration shape checked by
`shapeOk`: one signal check opening each iteration, followed by at most one
accept attempt and its single consequence. -/
theorem serverRun_shapeOk (env : ListenEnv) (handlers : Nat → ConnEnv)
    (single : Bool) :
    ∀ fuel i k, shapeOk false (serverRun env handlers single i k fuel).1 = true := by
  intro fuel
  induction fuel with
  | zero => intro i k; rfl
  | succ n ih =>
    intro i k
    cases hI : env.interrupted i with
    | true => simp [serverRun, hI, shapeOk]
    | false =>
      cases hA : env.accept i with
      | conn c =>
        cases single with
        | true => simp [serverRun, hI, hA, shapeOk]
        | false => simp [serverRun, hI, hA, shapeOk, ih (i + 1) (k + 1)]
      | wouldBlock => simp [serverRun, hI, hA, shapeOk, ih (i + 1) k]
      | fatal e => simp [serverRun, hI, hA, shapeOk]

/-- When the loop exits on a fatal accept error, the last action of the
trace is the report of that error: nothing is accepted or dispatched after
it. -/
theorem serverRun_fatal_last (env : ListenEnv) (handlers : Nat → ConnEnv)
    (single : Bool) :
    ∀ fuel i k e,
      (serverRun env handlers single i k fuel).2.1 = .fatalError e →
      (serverRun env handlers single i k fuel).1.getLast? = some (.report e) := by
  intro fuel
  induction fuel with
  | zero => intro i k e h; exact absurd h (by simp [serverRun])
  | succ n ih =>
    intro i k e h
    cases hI : env.interrupted i with
    | true => rw [show serverRun env handlers single i k (n+1)
                    = ([.checkSignal], .interrupted, []) by simp [serverRun, hI]] at h ⊢
              exact absurd h (by simp)
    | false =>
      cases hA : env.accept i with
      | conn c =>
        cases single with
        | true =>
          simp only [serverRun, hI, hA] at h ⊢
          simp at h
        | false =>
          simp only [serverRun, hI, hA] at h ⊢
          simp only [Bool.false_eq_true, if_false] at h ⊢
          have hlast := ih (i + 1) (k + 1) e h
          rcases htr : (serverRun env handlers false (i + 1) (k + 1) n).1 with _ | ⟨a, rest⟩
          · rw [htr] at hlast; simp at hlast
          · rw [htr] at hlast
            simp [List.getLast?_cons_cons, hlast, htr]
      | wouldBlock =>
        simp only [serverRun, hI, hA] at h ⊢
        have hlast := ih (i + 1) k e h
        rcases htr : (serverRun env handlers single (i + 1) k n).1 with _ | ⟨a, rest⟩
        · rw [htr] at hlast; simp at hlast
        · rw [htr] at hlast
          simp [List.getLast?_cons_cons, hlast, htr]
      | fatal e2 =>
        simp only [serverRun, hI, hA] at h ⊢
        simp at h
        subst h
        rfl

/-- The `j`-th recorded handler outcome is computed from the `j`-th handler
environment alone: the `k + j`-th dispatched connection runs
`handleConnection (handlers (k + j))`. -/
theorem serverRun_outcome_get (env : ListenEnv) (handlers : Nat → ConnEnv)
    (single : Bool) :
    ∀ fuel i k j res,
      (serverRun env handlers single i k fuel).2.2.get? j = some res →
      res = (handleConnection (handlers (k + j))).2 := by
  intro fuel
  induction fuel with
  | zero => intro i k j res h; exact absurd h (by simp [serverRun])
  | succ n ih =>
    intro i k j res h
    cases hI : env.interrupted i with
    | true => rw [show serverRun env handlers single i k (n+1)
                    = ([.checkSignal], .interrupted, []) by simp [serverRun, hI]] at h
              exact absurd h (by simp)
    | false =>
      cases hA : env.accept i with
      | conn c =>
        cases single with
        | true =>
          simp only [serverRun, hI, hA, if_true] at h
          simp only [Bool.false_eq_true, if_false] at h
          cases j with
          | zero => simp at h; simp [h]
          | succ m => simp at h
        | false =>
          simp only [serverRun, hI, hA] at h
          simp only [Bool.false_eq_true, if_false] at h
          cases j with
          | zero => simp at h; simp [h]
          | succ m =>
            simp only [List.get?_cons_succ] at h
            have hres := ih (i + 1) (k + 1) m res h
            have harith : k + 1 + m = k + (m + 1) := by omega
            rw [harith] at hres
            exact hres
      | wouldBlock =>
        simp only [serverRun, hI, hA] at h
        exact ih (i + 1) k j res h
      | fatal e =>
        simp only [serverRun, hI, hA] at h
        exact absurd h (by simp)

/-! ## Claim theorems -/

/-- C6: for every port value in [0, 65535] the conversion succeeds without
truncation (the `u16` equals the given value); for every port value outside
that range the invocation fails with the invalid-port error labelled at the
port argument, and no I/O action — in particular no socket — precedes that
check (the action trace is empty). -/
theorem port_range_checked_before_any_socket :
    ∀ v : Int,
      (0 ≤ v ∧ v ≤ 65535 → parsePort v = .ok v.toNat ∧ (v.toNat : Int) = v)
      ∧ (¬(0 ≤ v ∧ v ≤ 65535) →
          parsePort v
              = .error { name := "Invalid port number"
                       , help := some "Port must be between 0 and 65535."
                       , labelText := "here", labelSpan := .positional 1 }
          ∧ ∀ engine env args, args.portVal = v →
              connectRun engine env args
                = ([], .error { name := "Invalid port number"
                              , help := some "Port must be between 0 and 65535."
                              , labelText := "here", labelSpan := .positional 1 })) := by
  intro v
  constructor
  · intro h
    exact ⟨by simp [parsePort, h], Int.toNat_of_nonneg h.1⟩
  · intro h
    have hp : parsePort v
        = .error { name := "Invalid port number"
                 , help := some "Port must be between 0 and 65535."
                 , labelText := "here", labelSpan := .positional 1 } := by
      simp [parsePort, h]
    refine ⟨hp, ?_⟩
    intro engine env args hv
    simp [connectRun, hv, hp]

/-- Closed instance of the port-validation theorem: port 80 converts
exactly, port 70000 is rejected with an empty action trace. -/
theorem port_range_checked_witness :
    parsePort 80 = .ok 80
    ∧ connectRun ⟨none⟩ okNetEnv { udpArgs with portVal := 70000 }
        = ([], .error { name := "Invalid port number"
                      , help := some "Port must be between 0 and 65535."
                      , labelText := "here", labelSpan := .positional 1 }) :=
  ⟨((port_range_checked_before_any_socket 80).1 (by decide)).1,
   ((port_range_checked_before_any_socket 70000).2 (by decide)).2
     ⟨none⟩ okNetEnv { udpArgs with portVal := 70000 } rfl⟩

/-- C8: the payload is the string's bytes for a string input, the bytes for
a binary input, and empty for a nothing input; any other input shape makes
the invocation fail with the unsupported-input type error while the action
trace is still empty, i.e. before any network I/O. -/
theorem input_payload_derived_before_io :
    (∀ s, payloadOf (.str s) = .ok (strBytes s))
    ∧ (∀ b, payloadOf (.binary b) = .ok b)
    ∧ payloadOf .nothing = .ok []
    ∧ (∀ v, v.isPayload = false →
        ∀ engine env args port,
          args.input = v →
          parsePort args.portVal = .ok port →
          connectRun engine env args
            = ([], .error { name := "Unsupported input type"
                          , help := some ("Expected string or binary, but got "
                              ++ v.typeName)
                          , labelText := "input originates from here"
                          , labelSpan := .head })) := by
  refine ⟨fun s => rfl, fun b => rfl, rfl, ?_⟩
  intro v hv engine env args port hin hport
  cases v with
  | str s => simp [Value.isPayload] at hv
  | binary b => simp [Value.isPayload] at hv
  | nothing => simp [Value.isPayload] at hv
  | int n => simp [connectRun, hin, hport, payloadOf, Value.typeName]
  | other t => simp [connectRun, hin, hport, payloadOf, Value.typeName]

/-- Closed instance of the payload-derivation theorem: an integer input is
rejected before any network action. -/
theorem input_payload_derived_witness :
    connectRun ⟨none⟩ okNetEnv { udpArgs with input := .int 5 }
      = ([], .error { name := "Unsupported input type"
                    , help := some "Expected string or binary, but got int"
                    , labelText := "input originates from here"
                    , labelSpan := .head }) :=
  input_payload_derived_before_io.2.2.2 (.int 5) rfl ⟨none⟩ okNetEnv
    { udpArgs with input := .int 5 } 53 rfl rfl

/-- C9: a negative `--timeout` duration is not rejected; the `as u64` cast
wraps it modulo `2^64`, so the effective timeout is `2^64 + n` nanoseconds,
and the whole invocation behaves exactly as if the enormous positive value
`2^64 + n` had been passed. -/
theorem negative_timeout_flag_wraps :
    ∀ n : Int, -(2 ^ 63) ≤ n → n < 0 →
      (resolveTimeoutNanos (some n) : Int) = 2 ^ 64 + n
      ∧ resolveTimeoutNanos (some n) = resolveTimeoutNanos (some (2 ^ 64 + n))
      ∧ ∀ engine env args,
          args.timeoutFlag = some n →
          connectRun engine env args
            = connectRun engine env { args with timeoutFlag := some (2 ^ 64 + n) } := by
  intro n hlo hhi
  have hpow : (2 : Int) ^ 64 = 18446744073709551616 := by norm_num
  have hmod : n % (2 : Int) ^ 64 = 2 ^ 64 + n := by
    rw [hpow] at *
    omega
  have h1 : (resolveTimeoutNanos (some n) : Int) = 2 ^ 64 + n := by
    have hnn : 0 ≤ n % (2 : Int) ^ 64 := by
      rw [hpow]; omega
    simp only [resolveTimeoutNanos, Option.getD_some, u64ofInt]
    rw [Int.toNat_of_nonneg hnn, hmod]
  have h2 : resolveTimeoutNanos (some n)
      = resolveTimeoutNanos (some (2 ^ 64 + n)) := by
    simp only [resolveTimeoutNanos, Option.getD_some, u64ofInt]
    have hsame : (2 ^ 64 + n) % (2 : Int) ^ 64 = n % (2 : Int) ^ 64 := by
      rw [hpow] at *
      omega
    rw [hsame]
  refine ⟨h1, h2, ?_⟩
  intro engine env args hflag
  simp only [connectRun, hflag]
  rw [h2]

/-- Closed instance of the wrapping-timeout theorem at `-1` ns: the
effective timeout is `2^64 - 1` nanoseconds and the run is the run with
that enormous flag. -/
theorem negative_timeout_flag_witness :
    (resolveTimeoutNanos (some (-1)) : Int) = 2 ^ 64 + (-1)
    ∧ connectRun ⟨none⟩ okNetEnv { udpArgs with timeoutFlag := some (-1) }
        = connectRun ⟨none⟩ okNetEnv
            { udpArgs with timeoutFlag := some (2 ^ 64 + (-1)) } := by
  have h := negative_timeout_flag_wraps (-1) (by decide) (by decide)
  exact ⟨h.1, h.2.2 ⟨none⟩ okNetEnv { udpArgs with timeoutFlag := some (-1) } rfl⟩

/-- C1: the claimed flag > config > default precedence does not hold of the
active client.  With no flag the active resolver yields the 10 s default
whatever the configuration says, and `connectRun` is independent of the
engine's plugin configuration altogether; the backup source
(`savResolveTimeoutNanos`) and the spec's resolver (`specTimeoutResolve`)
do give the configured 5 s in that situation, and the flag wins in both
when present. -/
theorem timeout_config_ignored_by_active_client :
    resolveTimeoutNanos none = 10000000000
    ∧ (∀ e1 e2 env args, connectRun e1 env args = connectRun e2 env args)
    ∧ savResolveTimeoutNanos none (some 5000000000) = 5000000000
    ∧ savResolveTimeoutNanos (some 2000000000) (some 5000000000) = 2000000000
    ∧ savResolveTimeoutNanos none none = 10000000000
    ∧ specTimeoutResolve none (some 5000000000) = 5000000000
    ∧ specTimeoutResolve (some 2000000000) (some 5000000000) = 2000000000
    ∧ specTimeoutResolve none none = 10000000000 := by
  refine ⟨by decide, fun e1 e2 env args => rfl, by decide, by decide, by decide,
    rfl, rfl, rfl⟩

/-- C7: on the UDP branch, after the single `send_to` the client performs
exactly one `recv_from` with a 65535-byte buffer, returns the received
datagram fully materialized and truncated to the bytes actually received,
and the result is the same whatever source address the reply arrives from. -/
theorem udp_single_recv_any_source :
    ∀ engine env args port bytes a rest data src,
      args.useUdp = true →
      parsePort args.portVal = .ok port →
      payloadOf args.input = .ok bytes →
      env.resolve (addrString args.host port) = .ok (a :: rest) →
      a.isV4 = true →
      env.udpBind = .ok () →
      env.setUdpTimeout = .ok () →
      env.udpSendOs = .ok () →
      env.udpRecv = .ok (data, src) →
      connectRun engine env args
          = ([.resolve (addrString args.host port), .udpBind "0.0.0.0:0",
              .setReadTimeout (resolveTimeoutNanos args.timeoutFlag),
              .udpSendTo bytes a, .udpRecvFrom 65535],
             .ok (.binaryValue (data.take 65535)))
        ∧ (connectRun engine env args).1.countP (fun x => x.isRecvFrom) = 1
        ∧ ∀ src2,
            connectRun engine { env with udpRecv := .ok (data, src2) } args
              = connectRun engine env args := by
  intro engine env args port bytes a rest data src
  intro hudp hport hpay hres hv4 hbind hsetT hsend hrecv
  have hmain : connectRun engine env args
      = ([.resolve (addrString args.host port), .udpBind "0.0.0.0:0",
          .setReadTimeout (resolveTimeoutNanos args.timeoutFlag),
          .udpSendTo bytes a, .udpRecvFrom 65535],
         .ok (.binaryValue (data.take 65535))) := by
    simp [connectRun, hport, hpay, connectRunCore, hres, hudp, hbind, hsetT,
      udpSendToResult, hv4, hsend, hrecv]
  refine ⟨hmain, ?_, ?_⟩
  · rw [hmain]
    simp [List.countP_cons, NetAction.isRecvFrom]
  · intro src2
    rw [hmain]
    simp [connectRun, hport, hpay, connectRunCore, hres, hudp, hbind, hsetT,
      udpSendToResult, hv4, hsend]

/-- Closed instance of the UDP-receive theorem: a concrete UDP call returns
the datagram `[1, 2, 3]` after exactly one 65535-byte receive. -/
theorem udp_single_recv_witness :
    connectRun ⟨none⟩ okNetEnv udpArgs
      = ([.resolve (addrString "203.0.113.9" 53), .udpBind "0.0.0.0:0",
          .setReadTimeout (resolveTimeoutNanos none),
          .udpSendTo [] ⟨.v4 198 51 100 7, 80⟩, .udpRecvFrom 65535],
         .ok (.binaryValue [1, 2, 3])) :=
  (udp_single_recv_any_source ⟨none⟩ okNetEnv udpArgs 53 [] ⟨.v4 198 51 100 7, 80⟩
    [] [1, 2, 3] ⟨.v4 198 51 100 7, 80⟩
    rfl rfl rfl rfl rfl rfl rfl rfl rfl).1

/-- C10: the UDP client always binds the IPv4 wildcard `0.0.0.0` with an
ephemeral port; when the first resolved address is an IPv6 address, the
send step fails with the send error even though resolution and binding
succeeded (both appear in the action trace before the failing send). -/
theorem udp_ipv6_target_send_fails :
    ∀ engine env args port bytes a rest,
      args.useUdp = true →
      parsePort args.portVal = .ok port →
      payloadOf args.input = .ok bytes →
      env.resolve (addrString args.host port) = .ok (a :: rest) →
      a.isV4 = false →
      env.udpBind = .ok () →
      env.setUdpTimeout = .ok () →
      connectRun engine env args
        = ([.resolve (addrString args.host port), .udpBind "0.0.0.0:0",
            .setReadTimeout (resolveTimeoutNanos args.timeoutFlag),
            .udpSendTo bytes a],
           .error { name := "Failed to send UDP packet"
                  , help := some "Address family not supported by protocol (os error 97)"
                  , labelText := "here", labelSpan := .head }) := by
  intro engine env args port bytes a rest
  intro hudp hport hpay hres hv6 hbind hsetT
  simp [connectRun, hport, hpay, connectRunCore, hres, hudp, hbind, hsetT,
    udpSendToResult, hv6]

/-- Closed instance of the IPv6-target theorem: resolution to
`2001:db8::1` and the IPv4 wildcard bind succeed, the send fails. -/
theorem udp_ipv6_target_witness :
    connectRun ⟨none⟩ v6NetEnv udpArgs
      = ([.resolve (addrString "203.0.113.9" 53), .udpBind "0.0.0.0:0",
          .setReadTimeout (resolveTimeoutNanos none),
          .udpSendTo [] ⟨.v6 "2001:db8::1", 80⟩],
         .error { name := "Failed to send UDP packet"
                , help := some "Address family not supported by protocol (os error 97)"
                , labelText := "here", labelSpan := .head }) :=
  udp_ipv6_target_send_fails ⟨none⟩ v6NetEnv udpArgs 53 [] ⟨.v6 "2001:db8::1", 80⟩ []
    rfl rfl rfl rfl rfl rfl rfl

/-- C2 counterexample: with an environment whose first accept attempt fails
with a non-would-block error, the loop does exit on that fatal error, yet
`Listen::run` returns the successful empty result — not an error result. -/
theorem fatal_accept_returns_ok_empty :
    (serverRun fatalListenEnv (fun _ => okConnEnv) false 0 0 1).2.1
        = .fatalError "boom"
    ∧ (listenRun fatalListenEnv (fun _ => okConnEnv) false 1).2
        = some (.ok ()) :=
  ⟨rfl, rfl⟩

/-- C2 amended: on a non-would-block accept error the loop stops — the
trace ends with the report of that error, nothing is accepted or dispatched
after it — but the run operation still returns the successful empty result
rather than an error result. -/
theorem fatal_accept_stops_loop_but_returns_empty :
    ∀ env handlers single fuel e,
      env.bindResult = .ok () →
      env.setNonblockingResult = .ok () →
      (serverRun env handlers single 0 0 fuel).2.1 = .fatalError e →
      (listenRun env handlers single fuel).2 = some (.ok ())
      ∧ (listenRun env handlers single fuel).1.getLast? = some (.report e) := by
  intro env handlers single fuel e hb hnb hex
  have hl : listenRun env handlers single fuel
      = ((serverRun env handlers single 0 0 fuel).1,
         runResultOfExit (serverRun env handlers single 0 0 fuel).2.1) := by
    simp [listenRun, hb, hnb]
  rw [hl]
  exact ⟨by rw [hex]; rfl,
    serverRun_fatal_last env handlers single fuel 0 0 e hex⟩

/-- Closed instance of the amended fatal-accept theorem. -/
theorem fatal_accept_stops_loop_witness :
    (listenRun fatalListenEnv (fun _ => okConnEnv) false 1).2 = some (.ok ())
    ∧ (listenRun fatalListenEnv (fun _ => okConnEnv) false 1).1.getLast?
        = some (.report "boom") :=
  fatal_accept_stops_loop_but_returns_empty fatalListenEnv (fun _ => okConnEnv)
    false 1 "boom" rfl rfl rfl

/-- C3: a closure result that is neither a string nor a binary makes the
handler fail with the protocol error while writing no response bytes; and
every handler outcome is confined to its own handler — the loop trace and
exit never depend on the handler environments, and the `j`-th recorded
outcome is a function of the `j`-th handler environment alone. -/
theorem closure_output_validated_and_errors_confined :
    (∀ cenv bytes v,
        cenv.setReadTimeoutResult = .ok () →
        cenv.readResult = .ok bytes →
        cenv.evalClosure (bytes.take 4096) = .ok v →
        v.isByteRepresentable = false →
        (handleConnection cenv).2
            = .error { error := "Unsupported closure output"
                     , msg := "Expected string or binary from closure, but got "
                         ++ v.typeName ++ "."
                     , help := some "The closure for `socket listen` must return a string or binary value." }
          ∧ (handleConnection cenv).1.filter (fun x => x.isWrite) = [])
    ∧ (∀ env h1 h2 single fuel i k,
        (serverRun env h1 single i k fuel).1 = (serverRun env h2 single i k fuel).1
        ∧ (serverRun env h1 single i k fuel).2.1
            = (serverRun env h2 single i k fuel).2.1)
    ∧ (∀ env handlers single fuel i k j res,
        (serverRun env handlers single i k fuel).2.2.get? j = some res →
        res = (handleConnection (handlers (k + j))).2) := by
  refine ⟨?_, fun env h1 h2 single fuel i k =>
      serverRun_handlers_agnostic env h1 h2 single fuel i k,
    fun env handlers single fuel i k j res h =>
      serverRun_outcome_get env handlers single fuel i k j res h⟩
  intro cenv bytes v hset hread heval hv
  cases v with
  | str s => simp [Value.isByteRepresentable] at hv
  | binary b => simp [Value.isByteRepresentable] at hv
  | nothing =>
    simp [handleConnection, hset, hread, heval, Value.typeName, ConnAction.isWrite]
  | int n =>
    simp [handleConnection, hset, hread, heval, Value.typeName, ConnAction.isWrite]
  | other t =>
    simp [handleConnection, hset, hread, heval, Value.typeName, ConnAction.isWrite]

/-- Closed instance of the closure-validation theorem: a closure returning
the integer 3 yields the protocol error and no write action. -/
theorem closure_output_validated_witness :
    (handleConnection intConnEnv).2
        = .error { error := "Unsupported closure output"
                 , msg := "Expected string or binary from closure, but got int."
                 , help := some "The closure for `socket listen` must return a string or binary value." }
    ∧ (handleConnection intConnEnv).1.filter (fun x => x.isWrite) = [] :=
  closure_output_validated_and_errors_confined.1 intConnEnv [7, 7] (.int 3)
    rfl rfl rfl rfl

/-- C4: in single-shot mode, the iteration that accepts a connection ends
the loop immediately after the dispatch: the trace ends at the dispatch (no
second accept attempt), exactly one dispatch occurs, and the loop's trace
and exit are the same whatever the handler does (the loop does not wait for
the handler). -/
theorem single_shot_stops_after_first_dispatch :
    ∀ env handlers i k fuel c,
      env.interrupted i = false →
      env.accept i = .conn c →
      serverRun env handlers true i k (fuel + 1)
          = ([.checkSignal, .acceptAttempt, .dispatch c], .singleShotDone,
             [(handleConnection (handlers k)).2])
      ∧ dispatchCount [LoopAction.checkSignal, .acceptAttempt, .dispatch c] = 1
      ∧ ∀ h2, (serverRun env h2 true i k (fuel + 1)).1
            = [.checkSignal, .acceptAttempt, .dispatch c]
          ∧ (serverRun env h2 true i k (fuel + 1)).2.1 = .singleShotDone := by
  intro env handlers i k fuel c hI hA
  have hmain : serverRun env handlers true i k (fuel + 1)
      = ([.checkSignal, .acceptAttempt, .dispatch c], .singleShotDone,
         [(handleConnection (handlers k)).2]) := by
    simp [serverRun, hI, hA]
  refine ⟨hmain, by simp [dispatchCount, List.countP_cons, LoopAction.isDispatch], ?_⟩
  intro h2
  have hag := serverRun_handlers_agnostic env h2 handlers true (fuel + 1) i k
  constructor
  · rw [hag.1, hmain]
  · rw [hag.2, hmain]

/-- Closed instance of the single-shot theorem. -/
theorem single_shot_witness :
    serverRun oneConnListenEnv (fun _ => okConnEnv) true 0 0 1
      = ([.checkSignal, .acceptAttempt, .dispatch 0], .singleShotDone,
         [(handleConnection okConnEnv).2]) :=
  (single_shot_stops_after_first_dispatch oneConnListenEnv (fun _ => okConnEnv)
    0 0 0 0 rfl rfl).1

/-- C5: every loop trace checks the signal exactly once per iteration
before the accept attempt (`shapeOk`); a would-block accept is followed by
the fixed 50 ms sleep before the next iteration's signal check; and an
iteration whose signal is set terminates the loop at once — the whole
remaining trace is that single check, with no further accept, dispatch, or
wait on previously dispatched handlers. -/
theorem accept_loop_polling_and_cancellation :
    ∀ env handlers single fuel i k,
      shapeOk false (serverRun env handlers single i k fuel).1 = true
      ∧ (env.interrupted i = true →
          serverRun env handlers single i k (fuel + 1)
            = ([.checkSignal], .interrupted, []))
      ∧ (env.interrupted i = false → env.accept i = .wouldBlock →
          (serverRun env handlers single i k (fuel + 1)).1.take 3
            = [.checkSignal, .acceptAttempt, .sleep 50]) := by
  intro env handlers single fuel i k
  refine ⟨serverRun_shapeOk env handlers single fuel i k, ?_, ?_⟩
  · intro hI
    simp [serverRun, hI]
  · intro hI hA
    simp [serverRun, hI, hA]

/-- Closed instance of the polling/cancellation theorem: a set signal stops
the loop with a lone signal check; an idle iteration sleeps 50 ms after its
accept attempt. -/
theorem accept_loop_polling_witness :
    shapeOk false (serverRun idleListenEnv (fun _ => okConnEnv) false 0 0 3).1 = true
    ∧ serverRun interruptedListenEnv (fun _ => okConnEnv) false 0 0 1
        = ([.checkSignal], .interrupted, [])
    ∧ (serverRun idleListenEnv (fun _ => okConnEnv) false 0 0 1).1.take 3
        = [.checkSignal, .acceptAttempt, .sleep 50] :=
  ⟨(accept_loop_polling_and_cancellation idleListenEnv (fun _ => okConnEnv)
      false 3 0 0).1,
   (accept_loop_polling_and_cancellation interruptedListenEnv (fun _ => okConnEnv)
      false 0 0 0).2.1 rfl,
   (accept_loop_polling_and_cancellation idleListenEnv (fun _ => okConnEnv)
      false 0 0 0).2.2 rfl rfl⟩

end NuSocket
